import Mathlib

/-!
Verification of the client-side rate limiter in
`src/components/contexts/RateLimitContext.tsx`.

The limiter keeps two token counters (a per-second window and a per-minute
window), each refilled to its capacity by an independent periodic timer, and
drains a queue of asynchronous task producers strictly sequentially, consuming
one token from both windows before each task and reporting progress after each
completion.

Numbers held by the TypeScript code (token counts, capacities, timestamps in
milliseconds) are modelled as rationals `ℚ`; timestamps `Date.now()` become an
explicit `now : ℚ` argument.  Asynchronous suspension is modelled by explicit
environment steps (the bucket transitions that happen while a caller sleeps),
and the sequential drain loop is modelled as a recursive function that also
emits an event trace recording, in order, every token acquisition, every
producer invocation and every progress-callback invocation.
-/

namespace RateLimit

/-- `DATOCMS_CDA_RATE_LIMIT_PER_SECOND` (line 13): the environment variable is
unset in the reference setup, so the `?? 60` default applies. -/
def DATOCMS_CDA_RATE_LIMIT_PER_SECOND : ℚ := 60

/-- `DATOCMS_CDA_RATE_LIMIT_PER_MINUTE` (line 15): default `?? 1000`. -/
def DATOCMS_CDA_RATE_LIMIT_PER_MINUTE : ℚ := 1000

/-- Configuration of `RateLimitProvider`: the two raw maxima and the
`bufferPercentage` prop (default 10). -/
structure RateLimitConfig where
  maxTokensPerSecond : ℚ
  maxTokensPerMinute : ℚ
  bufferPercentage : ℚ
deriving DecidableEq, Repr

/-- Line 53: `maxTokensPerSecond * (1 - bufferPercentage / 100)`. -/
def adjustedMaxTokensPerSecond (cfg : RateLimitConfig) : ℚ :=
  cfg.maxTokensPerSecond * (1 - cfg.bufferPercentage / 100)

/-- Line 57: `maxTokensPerMinute * (1 - bufferPercentage / 100)`. -/
def adjustedMaxTokensPerMinute (cfg : RateLimitConfig) : ℚ :=
  cfg.maxTokensPerMinute * (1 - cfg.bufferPercentage / 100)

/-- The mutable refs of the provider: the two token counters
(`tokensPerSecondRemainingRef`, `tokensPerMinuteRemainingRef`, lines 62-67)
and the two next-refill timestamps (`nextPerSecondRefill`,
`nextPerMinuteRefill`, lines 106-107), in milliseconds. -/
structure BucketState where
  tokensPerSecondRemaining : ℚ
  tokensPerMinuteRemaining : ℚ
  nextPerSecondRefill : ℚ
  nextPerMinuteRefill : ℚ
deriving DecidableEq, Repr

/-- The decrement performed by `consumeToken` once its while-loop has exited
(lines 91-98): both counters drop by 1, clamped at 0 by `Math.max`. -/
def consumeTokenStep (s : BucketState) : BucketState :=
  { s with
    tokensPerSecondRemaining := max (s.tokensPerSecondRemaining - 1) 0
    tokensPerMinuteRemaining := max (s.tokensPerMinuteRemaining - 1) 0 }

/-- `consumeToken` (lines 82-103).  The while-loop at lines 83-88 sleeps 100 ms
whenever either counter is `<= 0`; during each sleep the environment (the
refill timers) may transform the bucket state, which we model by the list
`env` of state transitions, one applied per poll.  When both counters are
`> 0` the function performs the clamped decrement and returns the new state;
if `env` is exhausted while still blocked the caller is still suspended,
modelled as `none`. -/
def consumeToken : List (BucketState → BucketState) → BucketState → Option BucketState
  | [], s =>
    if 0 < s.tokensPerSecondRemaining ∧ 0 < s.tokensPerMinuteRemaining then
      some (consumeTokenStep s)
    else none
  | e :: rest, s =>
    if 0 < s.tokensPerSecondRemaining ∧ 0 < s.tokensPerMinuteRemaining then
      some (consumeTokenStep s)
    else consumeToken rest (e s)

/-- The per-second refill timer body (lines 124-130): reset the per-second
counter to its adjusted capacity and set `nextPerSecondRefill` to
`Date.now() + 1000`. -/
def perSecondRefill (cfg : RateLimitConfig) (now : ℚ) (s : BucketState) : BucketState :=
  { s with
    tokensPerSecondRemaining := adjustedMaxTokensPerSecond cfg
    nextPerSecondRefill := now + 1000 }

/-- The per-minute refill timer body (lines 132-141): reset the per-minute
counter to its adjusted capacity, also reset the per-second counter to its
adjusted capacity, and set `nextPerMinuteRefill` to `Date.now() + 60000`.
`nextPerSecondRefill` is not touched. -/
def perMinuteRefill (cfg : RateLimitConfig) (now : ℚ) (s : BucketState) : BucketState :=
  { s with
    tokensPerMinuteRemaining := adjustedMaxTokensPerMinute cfg
    tokensPerSecondRemaining := adjustedMaxTokensPerSecond cfg
    nextPerMinuteRefill := now + 60000 }

/-- The three events that mutate the token counters: a `consumeToken`
decrement, a per-second refill firing at wall-clock time `now`, and a
per-minute refill firing at wall-clock time `now`. -/
inductive BucketEvent where
  | consume : BucketEvent
  | secRefill : ℚ → BucketEvent
  | minRefill : ℚ → BucketEvent
deriving DecidableEq, Repr

/-- Interpretation of one bucket event on the state. -/
def applyEvent (cfg : RateLimitConfig) (e : BucketEvent) (s : BucketState) : BucketState :=
  match e with
  | .consume => consumeTokenStep s
  | .secRefill now => perSecondRefill cfg now s
  | .minRefill now => perMinuteRefill cfg now s

/-- Run a sequence of bucket events from a state. -/
def runEvents (cfg : RateLimitConfig) (evs : List BucketEvent) (s : BucketState) : BucketState :=
  evs.foldl (fun t e => applyEvent cfg e t) s

/-- The token-counter invariant of the spec: each remaining count lies between
0 and its adjusted capacity. -/
def Inv (cfg : RateLimitConfig) (s : BucketState) : Prop :=
  0 ≤ s.tokensPerSecondRemaining ∧
  s.tokensPerSecondRemaining ≤ adjustedMaxTokensPerSecond cfg ∧
  0 ≤ s.tokensPerMinuteRemaining ∧
  s.tokensPerMinuteRemaining ≤ adjustedMaxTokensPerMinute cfg

instance (cfg : RateLimitConfig) (s : BucketState) : Decidable (Inv cfg s) := by
  unfold Inv; infer_instance

/-- The initial bucket state built by `RateLimitProvider` at mount time `now`
(lines 62-67 and 106-107): both counters start at their adjusted capacities,
the next per-second refill is scheduled 1000 ms ahead and the next per-minute
refill 60000 ms ahead. -/
def initialBucketState (cfg : RateLimitConfig) (now : ℚ) : BucketState :=
  { tokensPerSecondRemaining := adjustedMaxTokensPerSecond cfg
    tokensPerMinuteRemaining := adjustedMaxTokensPerMinute cfg
    nextPerSecondRefill := now + 1000
    nextPerMinuteRefill := now + 60000 }

/-- Error type named by the spec for construction-time misconfiguration. -/
inductive ConfigurationError where
  | invalidConfig : ConfigurationError
deriving DecidableEq, Repr

/-- Construction of the provider (lines 45-107), embedded with an `Except`
result so that a fail-fast construction could be expressed: the source body
performs no validation of the configuration and has no throw path, so every
configuration — including non-positive rates or buffers — yields `Except.ok`
of the provider's initial state. -/
def mkRateLimitProvider (cfg : RateLimitConfig) (now : ℚ) :
    Except ConfigurationError BucketState :=
  Except.ok (initialBucketState cfg now)

/-- The four observable fields published for telemetry: the two counters and
the two countdowns (`updateCountdowns`, lines 110-118). -/
structure Snapshot where
  tokensPerSecondRemaining : ℚ
  tokensPerMinuteRemaining : ℚ
  perSecondCountdown : ℚ
  perMinuteCountdown : ℚ
deriving DecidableEq, Repr

/-- The snapshot read: the counters as stored, and each countdown computed
from the current time against the corresponding next-refill timestamp as
`Math.max((next - now) / 1000, 0)` (lines 112-117). -/
def snapshot (s : BucketState) (now : ℚ) : Snapshot :=
  { tokensPerSecondRemaining := s.tokensPerSecondRemaining
    tokensPerMinuteRemaining := s.tokensPerMinuteRemaining
    perSecondCountdown := max ((s.nextPerSecondRefill - now) / 1000) 0
    perMinuteCountdown := max ((s.nextPerMinuteRefill - now) / 1000) 0 }

/-- Observable events of one `executePromisesWithRateLimit` run, in the order
they happen: `acquired` records the `await consumeToken()` at line 161,
`invoked i r` records the call `promiseFn()` of the producer at queue position
`i` together with its asynchronous outcome, and `progressed c p` records a call
`onProgressUpdate(c, p)`. -/
inductive DrainEv (ε α : Type) where
  | acquired : DrainEv ε α
  | invoked : Nat → Except ε α → DrainEv ε α
  | progressed : Nat → Nat → DrainEv ε α

/-- The body of the `for (const promiseFn of promiseFns)` loop (lines 160-166),
run from a given `completed` count with `totalPromises` fixed.  Each producer
is modelled by the outcome its promise settles with.  Per iteration: acquire a
token, invoke the producer; if it rejects the loop body throws, so the run
stops and the whole call rejects with that error (no push, no progress call);
if it fulfils with `v`, push `v`, increment `completed` and call
`onProgressUpdate(completed, totalPromises - completed)`.  The queue position
of the producer equals the `completed` count at its invocation, because the
loop handles one producer per iteration in input order. -/
def drainFrom {ε α : Type} (totalPromises : Nat) :
    Nat → List (Except ε α) → List (DrainEv ε α) × Except ε (List α)
  | _, [] => ([], Except.ok [])
  | completed, promiseFn :: rest =>
    match promiseFn with
    | Except.error e =>
        ([DrainEv.acquired, DrainEv.invoked completed (Except.error e)], Except.error e)
    | Except.ok v =>
        let tail := drainFrom totalPromises (completed + 1) rest
        (DrainEv.acquired :: DrainEv.invoked completed (Except.ok v) ::
           DrainEv.progressed (completed + 1) (totalPromises - (completed + 1)) :: tail.1,
         tail.2.map (fun results => v :: results))

/-- `executePromisesWithRateLimit` (lines 151-171): run the loop over the whole
queue starting from `completed = 0`, returning the event trace and either the
full ordered result list or the first producer's error. -/
def executePromisesWithRateLimit {ε α : Type} (promiseFns : List (Except ε α)) :
    List (DrainEv ε α) × Except ε (List α) :=
  drainFrom promiseFns.length 0 promiseFns

/-- The queue positions of the producers that were invoked, in invocation
order, read off a drain trace. -/
def invokedIndices {ε α : Type} : List (DrainEv ε α) → List Nat
  | [] => []
  | DrainEv.invoked i _ :: t => i :: invokedIndices t
  | _ :: t => invokedIndices t

/-- The arguments of the `onProgressUpdate` calls, in call order, read off a
drain trace. -/
def progressCalls {ε α : Type} : List (DrainEv ε α) → List (Nat × Nat)
  | [] => []
  | DrainEv.progressed c p :: t => (c, p) :: progressCalls t
  | _ :: t => progressCalls t

/-- The value published through `RateLimitContext` (lines 19-29): the four
observable numbers plus the two operations.  `consumeToken` is represented by
its completion outcome and `executePromisesWithRateLimit` by the function from
the queue to the trace and result, as in the drain model above. -/
structure RateLimitContextProps (ε α : Type) where
  tokensPerSecondRemaining : ℚ
  tokensPerMinuteRemaining : ℚ
  perSecondCountdown : ℚ
  perMinuteCountdown : ℚ
  consumeToken : Unit → Except ε Unit
  executePromisesWithRateLimit :
    List (Except ε α) → List (DrainEv ε α) × Except ε (List α)

/-- The default context value passed to `createContext` (lines 31-38): the raw
rate limits, zero countdowns, a `consumeToken` that is `Promise.resolve()`, and
an `executePromisesWithRateLimit` that ignores its arguments and is
`Promise.resolve([])` — an empty trace (no producer invoked, no progress call)
and an empty result list. -/
def defaultRateLimitContext (ε α : Type) : RateLimitContextProps ε α :=
  { tokensPerSecondRemaining := DATOCMS_CDA_RATE_LIMIT_PER_SECOND
    tokensPerMinuteRemaining := DATOCMS_CDA_RATE_LIMIT_PER_MINUTE
    perSecondCountdown := 0
    perMinuteCountdown := 0
    consumeToken := fun _ => Except.ok ()
    executePromisesWithRateLimit := fun _ => ([], Except.ok []) }

/-- `useContext(RateLimitContext)`: returns the nearest provider's value, or
the `createContext` default when the component is rendered outside any
`RateLimitProvider`. -/
def useContextRateLimit {ε α : Type} (provided : Option (RateLimitContextProps ε α)) :
    RateLimitContextProps ε α :=
  provided.getD (defaultRateLimitContext ε α)

/-- JavaScript truthiness of the context value: `useContext` here always
returns an object (either a provider value or the non-null default), and every
object is truthy in JavaScript, so `!context` is always `false`. -/
def contextIsTruthy {ε α : Type} (_ : RateLimitContextProps ε α) : Bool :=
  true

/-- `useRateLimit` (lines 190-196): read the context; if the value were falsy,
throw `"useRateLimit must be used within a RateLimitProvider"`; otherwise
return it. -/
def useRateLimit {ε α : Type} (provided : Option (RateLimitContextProps ε α)) :
    Except String (RateLimitContextProps ε α) :=
  let context := useContextRateLimit provided
  if contextIsTruthy context then Except.ok context
  else Except.error "useRateLimit must be used within a RateLimitProvider"

/-- Closed form of the trace of a drain whose producers all fulfil: for each
task, one token acquisition, one invocation (at the queue position equal to
the completed count) and one progress call. -/
def okTrace {ε α : Type} (totalPromises : Nat) : Nat → List α → List (DrainEv ε α)
  | _, [] => []
  | completed, v :: rest =>
    DrainEv.acquired :: DrainEv.invoked completed (Except.ok v) ::
      DrainEv.progressed (completed + 1) (totalPromises - (completed + 1)) ::
      okTrace totalPromises (completed + 1) rest

/-- The reference configuration: raw maxima 60 and 1000, default buffer 10. -/
def sampleConfig : RateLimitConfig :=
  { maxTokensPerSecond := 60, maxTokensPerMinute := 1000, bufferPercentage := 10 }

/-- A concrete bucket state used to evaluate the model: 3 per-second tokens,
7 per-minute tokens, next refills scheduled at t = 1000 ms and t = 60000 ms. -/
def sampleState : BucketState :=
  { tokensPerSecondRemaining := 3, tokensPerMinuteRemaining := 7
    nextPerSecondRefill := 1000, nextPerMinuteRefill := 60000 }

/-! ## Helper lemmas -/

lemma consumeTokenStep_nonneg (s : BucketState) :
    0 ≤ (consumeTokenStep s).tokensPerSecondRemaining ∧
    0 ≤ (consumeTokenStep s).tokensPerMinuteRemaining :=
  ⟨le_max_right _ _, le_max_right _ _⟩

lemma consumeToken_some_eq {env : List (BucketState → BucketState)} {s s' : BucketState}
    (h : consumeToken env s = some s') :
    ∃ w : BucketState, 0 < w.tokensPerSecondRemaining ∧ 0 < w.tokensPerMinuteRemaining ∧
      s' = consumeTokenStep w := by
  induction env generalizing s with
  | nil =>
    rw [consumeToken] at h
    by_cases hc : 0 < s.tokensPerSecondRemaining ∧ 0 < s.tokensPerMinuteRemaining
    · rw [if_pos hc] at h
      injection h with h
      exact ⟨s, hc.1, hc.2, h.symm⟩
    · rw [if_neg hc] at h
      simp at h
  | cons e rest ih =>
    rw [consumeToken] at h
    by_cases hc : 0 < s.tokensPerSecondRemaining ∧ 0 < s.tokensPerMinuteRemaining
    · rw [if_pos hc] at h
      injection h with h
      exact ⟨s, hc.1, hc.2, h.symm⟩
    · rw [if_neg hc] at h
      exact ih h

lemma drainFrom_map_ok {ε α : Type} (totalPromises : Nat) (vs : List α) :
    ∀ completed : Nat,
      drainFrom (ε := ε) totalPromises completed (vs.map Except.ok) =
        (okTrace totalPromises completed vs, Except.ok vs) := by
  induction vs with
  | nil => intro c; rfl
  | cons v rest ih =>
    intro c
    simp [drainFrom, okTrace, ih (c + 1), Except.map]

lemma drainFrom_append_error {ε α : Type} (totalPromises : Nat) (e : ε)
    (rest : List (Except ε α)) (vs : List α) :
    ∀ completed : Nat,
      drainFrom totalPromises completed (vs.map Except.ok ++ Except.error e :: rest) =
        (okTrace totalPromises completed vs ++
           [DrainEv.acquired, DrainEv.invoked (completed + vs.length) (Except.error e)],
         Except.error e) := by
  induction vs with
  | nil => intro c; simp [drainFrom, okTrace]
  | cons v vtl ih =>
    intro c
    have harith : c + 1 + vtl.length = c + (vtl.length + 1) := by omega
    simp [drainFrom, okTrace, ih (c + 1), harith, Except.map]

lemma invokedIndices_append {ε α : Type} (t1 t2 : List (DrainEv ε α)) :
    invokedIndices (t1 ++ t2) = invokedIndices t1 ++ invokedIndices t2 := by
  induction t1 with
  | nil => rfl
  | cons h t ih => cases h <;> simp [invokedIndices, ih]

lemma invokedIndices_okTrace {ε α : Type} (totalPromises : Nat) (vs : List α) :
    ∀ completed : Nat,
      invokedIndices (okTrace (ε := ε) totalPromises completed vs) =
        List.range' completed vs.length := by
  induction vs with
  | nil => intro c; rfl
  | cons v rest ih =>
    intro c
    simp [okTrace, invokedIndices, ih (c + 1), List.range'_succ]

lemma progressCalls_okTrace {ε α : Type} (totalPromises : Nat) (vs : List α) :
    ∀ completed : Nat,
      progressCalls (okTrace (ε := ε) totalPromises completed vs) =
        (List.range' (completed + 1) vs.length).map (fun c => (c, totalPromises - c)) := by
  induction vs with
  | nil => intro c; rfl
  | cons v rest ih =>
    intro c
    simp [okTrace, progressCalls, ih (c + 1), List.range'_succ]

lemma inv_applyEvent {cfg : RateLimitConfig}
    (hs : 0 ≤ adjustedMaxTokensPerSecond cfg) (hm : 0 ≤ adjustedMaxTokensPerMinute cfg)
    (e : BucketEvent) {s : BucketState} (h : Inv cfg s) :
    Inv cfg (applyEvent cfg e s) := by
  unfold Inv at h ⊢
  obtain ⟨h1, h2, h3, h4⟩ := h
  cases e with
  | consume =>
    refine ⟨le_max_right _ _, max_le (by linarith) hs, le_max_right _ _, max_le (by linarith) hm⟩
  | secRefill now => exact ⟨hs, le_refl _, h3, h4⟩
  | minRefill now => exact ⟨hs, le_refl _, hm, le_refl _⟩

/-! ## Claim theorems -/

/-- C1: for every queue of N task producers, `executePromisesWithRateLimit`
invokes the producers strictly in input order one at a time (the invoked queue
positions in the trace are exactly 0, 1, …, N-1 in order) and returns exactly
the N outcomes in input order; for the empty queue it resolves immediately
with an empty outcome sequence and zero progress callbacks. -/
theorem executePromises_sequential_in_order {α : Type} (vs : List α) :
    (executePromisesWithRateLimit (vs.map Except.ok : List (Except String α))).2 =
      Except.ok vs ∧
    invokedIndices (executePromisesWithRateLimit (vs.map Except.ok :
        List (Except String α))).1 = List.range vs.length ∧
    executePromisesWithRateLimit ([] : List (Except String α)) = ([], Except.ok []) ∧
    progressCalls (executePromisesWithRateLimit ([] : List (Except String α))).1 = [] := by
  have h := drainFrom_map_ok (ε := String)
    (vs.map Except.ok : List (Except String α)).length vs 0
  refine ⟨?_, ?_, rfl, rfl⟩
  · rw [executePromisesWithRateLimit, h]
  · rw [executePromisesWithRateLimit, h, invokedIndices_okTrace, List.range_eq_range']

/-- C2: `consumeToken` suspends while either counter is ≤ 0 — each poll
applies one environment step and re-checks, and with no environment step left
it stays suspended — and once both counters are > 0 it performs the clamped
decrement of both and returns; whenever it returns, both counters of the
returned state are non-negative and the returned state is the clamped
decrement of a state in which both counters were positive. -/
theorem consumeToken_spec :
    (∀ (env : List (BucketState → BucketState)) (s s' : BucketState),
        consumeToken env s = some s' →
        (0 ≤ s'.tokensPerSecondRemaining ∧ 0 ≤ s'.tokensPerMinuteRemaining) ∧
        ∃ w : BucketState, 0 < w.tokensPerSecondRemaining ∧
          0 < w.tokensPerMinuteRemaining ∧ s' = consumeTokenStep w) ∧
    (∀ (e : BucketState → BucketState) (env : List (BucketState → BucketState))
        (s : BucketState),
        s.tokensPerSecondRemaining ≤ 0 ∨ s.tokensPerMinuteRemaining ≤ 0 →
        consumeToken (e :: env) s = consumeToken env (e s)) ∧
    (∀ s : BucketState,
        s.tokensPerSecondRemaining ≤ 0 ∨ s.tokensPerMinuteRemaining ≤ 0 →
        consumeToken [] s = none) ∧
    (∀ (env : List (BucketState → BucketState)) (s : BucketState),
        0 < s.tokensPerSecondRemaining → 0 < s.tokensPerMinuteRemaining →
        consumeToken env s = some (consumeTokenStep s)) := by
  have hblock : ∀ s : BucketState,
      s.tokensPerSecondRemaining ≤ 0 ∨ s.tokensPerMinuteRemaining ≤ 0 →
      ¬ (0 < s.tokensPerSecondRemaining ∧ 0 < s.tokensPerMinuteRemaining) := by
    intro s h hc
    rcases h with h | h
    · linarith [hc.1]
    · linarith [hc.2]
  refine ⟨?_, ?_, ?_, ?_⟩
  · intro env s s' h
    obtain ⟨w, hw1, hw2, hw⟩ := consumeToken_some_eq h
    exact ⟨hw ▸ consumeTokenStep_nonneg w, w, hw1, hw2, hw⟩
  · intro e env s h
    rw [consumeToken, if_neg (hblock s h)]
  · intro s h
    rw [consumeToken, if_neg (hblock s h)]
  · intro env s h1 h2
    cases env with
    | nil => rw [consumeToken, if_pos ⟨h1, h2⟩]
    | cons e rest => rw [consumeToken, if_pos ⟨h1, h2⟩]

/-- C2 witness: from the sample state (3 and 7 tokens, both positive),
`consumeToken` returns at once with the clamped decrement. -/
theorem consumeToken_spec_witness :
    consumeToken [] sampleState = some (consumeTokenStep sampleState) :=
  consumeToken_spec.2.2.2 [] sampleState (by norm_num [sampleState])
    (by norm_num [sampleState])

/-- C3: the invariant 0 ≤ tokensPerSecondRemaining ≤ adjusted per-second
capacity and 0 ≤ tokensPerMinuteRemaining ≤ adjusted per-minute capacity is
preserved by every interleaving of consume decrements and refill events,
provided both adjusted capacities are non-negative. -/
theorem tokenCounters_invariant (cfg : RateLimitConfig)
    (hs : 0 ≤ adjustedMaxTokensPerSecond cfg) (hm : 0 ≤ adjustedMaxTokensPerMinute cfg)
    (evs : List BucketEvent) (s : BucketState) (h : Inv cfg s) :
    Inv cfg (runEvents cfg evs s) := by
  induction evs generalizing s with
  | nil => exact h
  | cons e tl ih =>
    simp only [runEvents, List.foldl_cons] at ih ⊢
    exact ih _ (inv_applyEvent hs hm e h)

/-- C3 witness: the invariant holds after a concrete interleaving of consume
and refill events starting from the initial state of the reference
configuration. -/
theorem tokenCounters_invariant_witness :
    Inv sampleConfig (runEvents sampleConfig
      [BucketEvent.consume, BucketEvent.secRefill 1000, BucketEvent.consume,
       BucketEvent.consume, BucketEvent.minRefill 60000, BucketEvent.consume]
      (initialBucketState sampleConfig 0)) :=
  tokenCounters_invariant sampleConfig
    (by norm_num [adjustedMaxTokensPerSecond, sampleConfig])
    (by norm_num [adjustedMaxTokensPerMinute, sampleConfig]) _ _
    (by norm_num [Inv, initialBucketState, adjustedMaxTokensPerSecond,
          adjustedMaxTokensPerMinute, sampleConfig])

/-- C4: during a drain of a queue of length N whose producers fulfil, the
progress callback is called exactly N times, the i-th call (0-based) gets
arguments (i+1, N-(i+1)), the completed argument is strictly increasing across
calls, each call's two arguments sum to N, and the whole trace is the
per-task pattern acquire-invoke-progress, so each progress call happens after
its task's outcome is recorded and before the next task starts. -/
theorem onProgressUpdate_spec {α : Type} (vs : List α) :
    progressCalls (executePromisesWithRateLimit (vs.map Except.ok :
        List (Except String α))).1 =
      (List.range' 1 vs.length).map (fun c => (c, vs.length - c)) ∧
    (progressCalls (executePromisesWithRateLimit (vs.map Except.ok :
        List (Except String α))).1).length = vs.length ∧
    List.Pairwise (fun a b : Nat × Nat => a.1 < b.1)
      (progressCalls (executePromisesWithRateLimit (vs.map Except.ok :
        List (Except String α))).1) ∧
    (∀ p ∈ progressCalls (executePromisesWithRateLimit (vs.map Except.ok :
        List (Except String α))).1, p.1 + p.2 = vs.length) ∧
    (executePromisesWithRateLimit (vs.map Except.ok : List (Except String α))).1 =
      okTrace vs.length 0 vs := by
  have h := drainFrom_map_ok (ε := String)
    (vs.map Except.ok : List (Except String α)).length vs 0
  have htr : (executePromisesWithRateLimit (vs.map Except.ok :
      List (Except String α))).1 = okTrace vs.length 0 vs := by
    rw [executePromisesWithRateLimit, h]
    simp
  have hclosed : progressCalls (executePromisesWithRateLimit (vs.map Except.ok :
      List (Except String α))).1 =
      (List.range' 1 vs.length).map (fun c => (c, vs.length - c)) := by
    rw [htr, progressCalls_okTrace]
  refine ⟨hclosed, ?_, ?_, ?_, htr⟩
  · rw [hclosed]; simp
  · rw [hclosed]
    refine List.pairwise_map.2 ?_
    refine (List.pairwise_lt_range' 1 vs.length).imp ?_
    intro a b hab
    simpa using hab
  · intro p hp
    rw [hclosed] at hp
    obtain ⟨c, hc, rfl⟩ := List.mem_map.1 hp
    rw [List.mem_range'_1] at hc
    simp only
    omega

/-- C4 witness: in a drain of the three-task queue [10, 20, 30], the progress
call (1, 2) occurs and its arguments sum to the queue length. -/
theorem onProgressUpdate_spec_witness :
    (1, 2) ∈ progressCalls (executePromisesWithRateLimit
      (([10, 20, 30] : List Nat).map Except.ok : List (Except String Nat))).1 ∧
    (1 : Nat) + 2 = ([10, 20, 30] : List Nat).length :=
  ⟨by decide, (onProgressUpdate_spec ([10, 20, 30] : List Nat)).2.2.2.1 (1, 2) (by decide)⟩

/-- C5: the per-minute refill sets both counters back to their adjusted
capacities simultaneously and advances its own next-refill timestamp, while
leaving the per-second window's next-refill timestamp unchanged. -/
theorem perMinuteRefill_frame (cfg : RateLimitConfig) (now : ℚ) (s : BucketState) :
    (perMinuteRefill cfg now s).tokensPerMinuteRemaining = adjustedMaxTokensPerMinute cfg ∧
    (perMinuteRefill cfg now s).tokensPerSecondRemaining = adjustedMaxTokensPerSecond cfg ∧
    (perMinuteRefill cfg now s).nextPerSecondRefill = s.nextPerSecondRefill ∧
    (perMinuteRefill cfg now s).nextPerMinuteRefill = now + 60000 :=
  ⟨rfl, rfl, rfl, rfl⟩

/-- C6: if the producer at queue position `vs.length` rejects (after `vs.length`
fulfilled producers), the drain rejects with that error and no later producer
in the queue is invoked: the invoked positions are exactly 0, …, vs.length. -/
theorem taskFailure_aborts {α : Type} (vs : List α) (err : String)
    (rest : List (Except String α)) :
    (executePromisesWithRateLimit (vs.map Except.ok ++ Except.error err :: rest)).2 =
      Except.error err ∧
    invokedIndices (executePromisesWithRateLimit
        (vs.map Except.ok ++ Except.error err :: rest)).1 =
      List.range (vs.length + 1) := by
  have h := drainFrom_append_error
    (vs.map Except.ok ++ Except.error err :: rest).length err rest vs 0
  constructor
  · rw [executePromisesWithRateLimit, h]
  · rw [executePromisesWithRateLimit, h, invokedIndices_append, invokedIndices_okTrace]
    simp [invokedIndices, List.range_eq_range', List.range'_concat]

/-- C7 counterexample: constructing with a negative rate and a buffer above
100 percent still yields a provider (`Except.ok`), not a `ConfigurationError`;
construction does not fail fast on non-positive configuration. -/
theorem construction_accepts_bad_config :
    (mkRateLimitProvider
      { maxTokensPerSecond := -5, maxTokensPerMinute := 1000, bufferPercentage := 250 }
      0).isOk = true :=
  rfl

/-- C7 amended: construction performs no validation at all — every
configuration, non-positive values included, produces `Except.ok` of the
initial state, whose counters are the adjusted capacities
rawMax * (1 - bufferPercentage / 100). -/
theorem construction_unvalidated (cfg : RateLimitConfig) (now : ℚ) :
    mkRateLimitProvider cfg now = Except.ok (initialBucketState cfg now) ∧
    (initialBucketState cfg now).tokensPerSecondRemaining =
      cfg.maxTokensPerSecond * (1 - cfg.bufferPercentage / 100) ∧
    (initialBucketState cfg now).tokensPerMinuteRemaining =
      cfg.maxTokensPerMinute * (1 - cfg.bufferPercentage / 100) :=
  ⟨rfl, rfl, rfl⟩

/-- C8 counterexample: a per-second refill firing at t = 1050 ms on a state
whose previous scheduled refill was t = 1000 ms reschedules the next refill to
2050 ms, not to 1000 + 1000 = 2000 ms: the code reschedules relative to the
firing time, not the previous scheduled timestamp. -/
theorem refill_reschedule_cex :
    ¬ ((perSecondRefill sampleConfig 1050 sampleState).nextPerSecondRefill =
        sampleState.nextPerSecondRefill + 1000) := by
  norm_num [perSecondRefill, sampleState]

/-- C8 amended: every refill sets the corresponding remaining count back to
its adjusted capacity (overwriting, never accumulating or banking unused
tokens) and reschedules that window's next refill to exactly one window-length
(1000 ms or 60000 ms) after the moment the refill fires. -/
theorem refill_resets_and_reschedules (cfg : RateLimitConfig) (now : ℚ) (s : BucketState) :
    (perSecondRefill cfg now s).tokensPerSecondRemaining = adjustedMaxTokensPerSecond cfg ∧
    (perSecondRefill cfg now s).nextPerSecondRefill = now + 1000 ∧
    (perSecondRefill cfg now s).tokensPerMinuteRemaining = s.tokensPerMinuteRemaining ∧
    (perSecondRefill cfg now s).nextPerMinuteRefill = s.nextPerMinuteRefill ∧
    (perMinuteRefill cfg now s).tokensPerMinuteRemaining = adjustedMaxTokensPerMinute cfg ∧
    (perMinuteRefill cfg now s).nextPerMinuteRefill = now + 60000 :=
  ⟨rfl, rfl, rfl, rfl, rfl, rfl⟩

/-- C9 counterexample: two snapshot reads of the same bucket state with no
acquire and no refill in between, taken 100 ms apart, differ — the countdown
fields depend on the current time. -/
theorem snapshot_not_time_independent :
    ¬ (snapshot sampleState 0 = snapshot sampleState 100) := by
  intro h
  have h2 := congrArg Snapshot.perSecondCountdown h
  have e1 : (snapshot sampleState 0).perSecondCountdown = 1 := by
    simp only [snapshot, sampleState]
    rw [max_eq_left] <;> norm_num
  have e2 : (snapshot sampleState 100).perSecondCountdown = 9 / 10 := by
    simp only [snapshot, sampleState]
    rw [max_eq_left] <;> norm_num
  rw [e1, e2] at h2
  norm_num at h2

/-- C9 amended: the snapshot read is a pure function of the bucket state and
the current time: the two token fields agree across any two reads of the same
state regardless of elapsed time, two reads of the same state at the same
instant agree on all four fields, and both countdown fields are floored at
zero. -/
theorem snapshot_pure (s : BucketState) (n1 n2 : ℚ) :
    (snapshot s n1).tokensPerSecondRemaining = (snapshot s n2).tokensPerSecondRemaining ∧
    (snapshot s n1).tokensPerMinuteRemaining = (snapshot s n2).tokensPerMinuteRemaining ∧
    (n1 = n2 → snapshot s n1 = snapshot s n2) ∧
    0 ≤ (snapshot s n1).perSecondCountdown ∧
    0 ≤ (snapshot s n1).perMinuteCountdown :=
  ⟨rfl, rfl, fun h => by rw [h], le_max_right _ _, le_max_right _ _⟩

/-- C9 amended witness: both snapshot reads of the sample state at the same
instant agree, and its countdowns are non-negative. -/
theorem snapshot_pure_witness :
    snapshot sampleState 5 = snapshot sampleState 5 ∧
    0 ≤ (snapshot sampleState 5).perSecondCountdown :=
  ⟨(snapshot_pure sampleState 5 5).2.2.1 rfl, (snapshot_pure sampleState 5 5).2.2.2.1⟩

/-- C10: `useRateLimit` never throws — the context default is a non-null
object, objects are truthy, so the guard's error branch is unreachable and the
hook returns the context value for every input; outside a provider it returns
the default, whose `consumeToken` resolves immediately and whose
`executePromisesWithRateLimit` resolves to the empty array with an empty trace
(no producer invoked, no progress call) for every queue. -/
theorem useRateLimit_never_throws (ε α : Type)
    (provided : Option (RateLimitContextProps ε α)) (fns : List (Except ε α)) :
    useRateLimit provided = Except.ok (useContextRateLimit provided) ∧
    useRateLimit (none : Option (RateLimitContextProps ε α)) =
      Except.ok (defaultRateLimitContext ε α) ∧
    (defaultRateLimitContext ε α).consumeToken () = Except.ok () ∧
    (defaultRateLimitContext ε α).executePromisesWithRateLimit fns = ([], Except.ok []) ∧
    invokedIndices ((defaultRateLimitContext ε α).executePromisesWithRateLimit fns).1 = [] ∧
    progressCalls ((defaultRateLimitContext ε α).executePromisesWithRateLimit fns).1 = [] :=
  ⟨rfl, rfl, rfl, rfl, rfl, rfl⟩

end RateLimit
